import Mathlib

/-!
Shallow embedding of the three Azure ML gate scoring scripts of this
repository (`src/ml/score_question_depth.py`, `src/ml/score_decision_gravity.py`,
`src/ml/score_consequence_depth.py`) and proofs about their scoring contract.

Probabilities and scores are modelled as rationals.  Python's `round(x, 3)`
(round-half-even at three decimal places) is modelled by `round3`.  The external
pieces of a request — `json.loads(raw_data)` followed by `data.get('text', '')`,
and the loaded classifier's `predict_proba` — are modelled abstractly by
`ParseOutcome` and `Model`: either an exception with a message, or a value.
-/

/-- Outcome of `json.loads(raw_data)` followed by `data.get('text', '')`:
either some step raised an exception carrying message `msg`, or the record was
parsed and its `text` field is `some s` when present and `none` when absent. -/
inductive ParseOutcome where
  | err (msg : String)
  | ok (text : Option String)

/-- The loaded classifier: `model.predict_proba([text])[0]` yields a two-class
probability vector `(proba0, proba1)`, or raises with a message. -/
abbrev Model := String → Except String (ℚ × ℚ)

/-- Round to the nearest integer, ties to even — the rounding mode of
Python's built-in `round`. -/
def rhe (q : ℚ) : ℤ :=
  if q - ⌊q⌋ < 1/2 then ⌊q⌋
  else if 1/2 < q - ⌊q⌋ then ⌊q⌋ + 1
  else if ⌊q⌋ % 2 = 0 then ⌊q⌋ else ⌊q⌋ + 1

/-- Python's `round(x, 3)`. -/
def round3 (q : ℚ) : ℚ := (rhe (q * 1000) : ℚ) / 1000

/-- Decide whether `pat` is an initial segment of a character list. -/
def charsStartWith : List Char → List Char → Bool
  | [], _ => true
  | _ :: _, [] => false
  | a :: as, b :: bs => a == b && charsStartWith as bs

/-- Decide whether `pat` occurs as a contiguous run inside a character list. -/
def charsContain (pat : List Char) : List Char → Bool
  | [] => pat.isEmpty
  | c :: cs => charsStartWith pat (c :: cs) || charsContain pat cs

/-- Python's substring operator `pat in s`, on the characters of lowered text. -/
def containsSub (s : List Char) (pat : String) : Bool := charsContain pat.data s

/-- Python's `str.lower()`, as a character list. -/
def pyLower (s : String) : List Char := s.data.map Char.toLower

/-- Python's `str.split()` with no argument: split on whitespace runs,
discarding empty pieces. -/
def pyWords (s : String) : List (List Char) :=
  let step := fun c (acc : List (List Char) × List Char) =>
    if c.isWhitespace then
      ((if acc.2.isEmpty then acc.1 else acc.2 :: acc.1), [])
    else (acc.1, c :: acc.2)
  let r := s.data.foldr step ([], [])
  if r.2.isEmpty then r.1 else r.2 :: r.1

namespace question_depth

/-- The `REJECTION_GUIDANCE` dict of `score_question_depth.py`. -/
def REJECTION_GUIDANCE : List (String × String) :=
  [("generic", "This question is too vague. Ask about specific aspects of your future experience."),
   ("advice_seeking", "This question seeks advice. Ask about your future self's internal experience instead."),
   ("predictive", "This question asks for predictions. Ask about one possible future experience."),
   ("leading", "This question seeks validation. Ask open questions about your future self's experience."),
   ("binary", "This question is too simple. Explore specific dimensions of your future experience."),
   ("comparison", "This system explores ONE future. Ask about this path specifically.")]

/-- `detect_rejection_type` of `score_question_depth.py`, lines 31-46. -/
def detect_rejection_type (text : String) : String :=
  let text_lower := pyLower text
  if (["should i", "what should", "recommend", "advise"]).any (containsSub text_lower) then
    "advice_seeking"
  else if (["will i", "will it", "what will", "going to"]).any (containsSub text_lower) then
    "predictive"
  else if (["won't", "isn't it", "don't you think", "right?"]).any (containsSub text_lower) then
    "leading"
  else if (["what if i had", "other option", "alternative"]).any (containsSub text_lower) then
    "comparison"
  else if (pyWords text).length < 6 then
    "binary"
  else
    "generic"

/-- `REJECTION_GUIDANCE.get(rt, REJECTION_GUIDANCE["generic"])` of line 95. -/
def guidance_for (rt : String) : String :=
  (REJECTION_GUIDANCE.lookup rt).getD ((REJECTION_GUIDANCE.lookup "generic").getD "")

/-- The JSON object returned by `run`; absent keys are `none`.  `dimensions`
holds `(specificity, introspective_depth, non_leading)` in order. -/
structure Output where
  depth_score : Option ℚ := none
  dimensions : Option (ℚ × ℚ × ℚ) := none
  gate_decision : String
  rejection_type : Option String := none
  guidance : Option String := none
  confidence : Option ℚ := none
  error : Option String := none
deriving DecidableEq, Repr

/-- `run` of `score_question_depth.py`, lines 49-116, with the parse outcome,
the loaded model and the three `np.random.uniform(-0.05, 0.05)` draws passed
explicitly. -/
def run (parse : ParseOutcome) (model : Model) (j1 j2 j3 : ℚ) : Output :=
  match parse with
  | .err msg => { gate_decision := "REJECT", error := some msg }
  | .ok textField =>
    let text := textField.getD ""
    if text = "" then
      { gate_decision := "REJECT",
        error := some "No text provided",
        guidance := some "Please provide a question." }
    else
      match model text with
      | .error msg => { gate_decision := "REJECT", error := some msg }
      | .ok (proba0, proba1) =>
        let depth_score := proba1
        let gate_decision := if depth_score ≥ 0.6 then "PROCEED" else "REJECT"
        let rg : Option String × Option String :=
          if gate_decision = "REJECT" then
            let rt := detect_rejection_type text
            (some rt, some (guidance_for rt))
          else (none, none)
        { depth_score := some (round3 depth_score),
          dimensions := some (round3 (depth_score * 0.95 + j1),
                              round3 (depth_score * 0.98 + j2),
                              round3 (depth_score * 0.92 + j3)),
          gate_decision := gate_decision,
          rejection_type := rg.1,
          guidance := rg.2,
          confidence := some (round3 (max proba0 proba1)) }

end question_depth

namespace decision_gravity

/-- The JSON object returned by `run`; absent keys are `none`.  `dimensions`
holds `(irreversibility, life_impact, temporal_consequence)` in order. -/
structure Output where
  gravity_score : Option ℚ := none
  dimensions : Option (ℚ × ℚ × ℚ) := none
  gate_decision : String
  confidence : Option ℚ := none
  error : Option String := none
deriving DecidableEq, Repr

/-- `run` of `score_decision_gravity.py`, lines 20-75. -/
def run (parse : ParseOutcome) (model : Model) (j1 j2 j3 : ℚ) : Output :=
  match parse with
  | .err msg => { gate_decision := "REFUSE", error := some msg }
  | .ok textField =>
    let text := textField.getD ""
    if text = "" then
      { gate_decision := "REFUSE", error := some "No text provided" }
    else
      match model text with
      | .error msg => { gate_decision := "REFUSE", error := some msg }
      | .ok (proba0, proba1) =>
        let gravity_score := proba1
        let gate_decision := if gravity_score ≥ 0.5 then "PROCEED" else "REFUSE"
        { gravity_score := some (round3 gravity_score),
          dimensions := some (round3 (gravity_score * 0.95 + j1),
                              round3 (gravity_score * 0.98 + j2),
                              round3 (gravity_score * 0.92 + j3)),
          gate_decision := gate_decision,
          confidence := some (round3 (max proba0 proba1)) }

end decision_gravity

namespace consequence_depth

/-- The JSON object returned by `run`; absent keys are `none`.  `dimensions`
holds `(emotional_specificity, concrete_reasoning, narrative_depth)` in order. -/
structure Output where
  consequence_depth_score : Option ℚ := none
  dimensions : Option (ℚ × ℚ × ℚ) := none
  gate_decision : String
  confidence : Option ℚ := none
  error : Option String := none
deriving DecidableEq, Repr

/-- `run` of `score_consequence_depth.py`, lines 20-75. -/
def run (parse : ParseOutcome) (model : Model) (j1 j2 j3 : ℚ) : Output :=
  match parse with
  | .err msg => { gate_decision := "TERMINATE", error := some msg }
  | .ok textField =>
    let text := textField.getD ""
    if text = "" then
      { gate_decision := "TERMINATE", error := some "No text provided" }
    else
      match model text with
      | .error msg => { gate_decision := "TERMINATE", error := some msg }
      | .ok (proba0, proba1) =>
        let depth_score := proba1
        let gate_decision := if depth_score ≥ 0.5 then "APPROVE" else "TERMINATE"
        { consequence_depth_score := some (round3 depth_score),
          dimensions := some (round3 (depth_score * 0.95 + j1),
                              round3 (depth_score * 0.92 + j2),
                              round3 (depth_score * 0.98 + j3)),
          gate_decision := gate_decision,
          confidence := some (round3 (max proba0 proba1)) }

end consequence_depth

/-! ### Arithmetic facts about `rhe` and `round3` -/

theorem floor_le_rhe (q : ℚ) : ⌊q⌋ ≤ rhe q := by
  unfold rhe
  split_ifs <;> omega

theorem rhe_le_floor_add_one (q : ℚ) : rhe q ≤ ⌊q⌋ + 1 := by
  unfold rhe
  split_ifs <;> omega

theorem rhe_close (q : ℚ) : |(rhe q : ℚ) - q| ≤ 1/2 := by
  have h0 : (⌊q⌋ : ℚ) ≤ q := Int.floor_le q
  have h1 : q < ⌊q⌋ + 1 := Int.lt_floor_add_one q
  unfold rhe
  split_ifs with ha hb hc <;> rw [abs_le] <;> push_cast <;> constructor <;> linarith

theorem int_le_rhe (n : ℤ) (q : ℚ) (h : (n : ℚ) ≤ q) : n ≤ rhe q :=
  le_trans (Int.le_floor.mpr h) (floor_le_rhe q)

theorem rhe_le_int (q : ℚ) (n : ℤ) (h : q ≤ (n : ℚ)) : rhe q ≤ n := by
  have hf : ⌊q⌋ ≤ n := by
    have := Int.floor_le_floor h
    simpa using this
  unfold rhe
  split_ifs with ha hb hc
  · exact hf
  · have hq : (⌊q⌋ : ℚ) < (n : ℚ) := by linarith
    have : ⌊q⌋ < n := by exact_mod_cast hq
    omega
  · exact hf
  · push_neg at ha
    have hq : (⌊q⌋ : ℚ) < (n : ℚ) := by linarith
    have : ⌊q⌋ < n := by exact_mod_cast hq
    omega

theorem round3_close (q : ℚ) : |round3 q - q| ≤ 1/2000 := by
  have h := rhe_close (q * 1000)
  have e : round3 q - q = ((rhe (q * 1000) : ℚ) - q * 1000) / 1000 := by
    unfold round3; ring
  rw [e, abs_div, abs_of_pos (by norm_num : (0:ℚ) < 1000),
    div_le_iff₀ (by norm_num : (0:ℚ) < 1000)]
  linarith

theorem half_le_round3 (q : ℚ) (h : 1/2 ≤ q) : 1/2 ≤ round3 q := by
  have h5 : ((500 : ℤ) : ℚ) ≤ q * 1000 := by push_cast; linarith
  have hr := int_le_rhe 500 (q * 1000) h5
  unfold round3
  rw [le_div_iff₀ (by norm_num : (0:ℚ) < 1000)]
  have : ((500 : ℤ) : ℚ) ≤ ((rhe (q * 1000) : ℤ) : ℚ) := by exact_mod_cast hr
  push_cast at this
  linarith

theorem round3_le_one (q : ℚ) (h : q ≤ 1) : round3 q ≤ 1 := by
  have h5 : q * 1000 ≤ ((1000 : ℤ) : ℚ) := by push_cast; linarith
  have hr := rhe_le_int (q * 1000) 1000 h5
  unfold round3
  rw [div_le_iff₀ (by norm_num : (0:ℚ) < 1000)]
  have : ((rhe (q * 1000) : ℤ) : ℚ) ≤ ((1000 : ℤ) : ℚ) := by exact_mod_cast hr
  push_cast at this
  linarith

theorem round3_band (p w j : ℚ) (hj : |j| ≤ 1/20) :
    p * w - 101/2000 ≤ round3 (p * w + j) ∧ round3 (p * w + j) ≤ p * w + 101/2000 := by
  have h := round3_close (p * w + j)
  rw [abs_le] at h hj
  constructor <;> linarith [h.1, h.2, hj.1, hj.2]

/-! ### Evaluation lemmas for the three `run` functions -/

theorem qd_run_err (msg : String) (m : Model) (j1 j2 j3 : ℚ) :
    question_depth.run (.err msg) m j1 j2 j3 =
      { gate_decision := "REJECT", error := some msg } := rfl

theorem qd_run_modelErr (t : String) (ht : t ≠ "") (m : Model) (msg : String)
    (hm : m t = Except.error msg) (j1 j2 j3 : ℚ) :
    question_depth.run (.ok (some t)) m j1 j2 j3 =
      { gate_decision := "REJECT", error := some msg } := by
  simp [question_depth.run, ht, hm]

theorem qd_run_ok (t : String) (ht : t ≠ "") (m : Model) (p0 p1 j1 j2 j3 : ℚ)
    (hm : m t = Except.ok (p0, p1)) :
    question_depth.run (.ok (some t)) m j1 j2 j3 =
      { depth_score := some (round3 p1),
        dimensions := some (round3 (p1 * 0.95 + j1), round3 (p1 * 0.98 + j2),
                            round3 (p1 * 0.92 + j3)),
        gate_decision := if 0.6 ≤ p1 then "PROCEED" else "REJECT",
        rejection_type := if 0.6 ≤ p1 then none else some (question_depth.detect_rejection_type t),
        guidance := if 0.6 ≤ p1 then none
                    else some (question_depth.guidance_for (question_depth.detect_rejection_type t)),
        confidence := some (round3 (max p0 p1)),
        error := none } := by
  by_cases h : (0.6 : ℚ) ≤ p1 <;>
    simp [question_depth.run, ht, hm, h, ge_iff_le]

theorem dg_run_err (msg : String) (m : Model) (j1 j2 j3 : ℚ) :
    decision_gravity.run (.err msg) m j1 j2 j3 =
      { gate_decision := "REFUSE", error := some msg } := rfl

theorem dg_run_modelErr (t : String) (ht : t ≠ "") (m : Model) (msg : String)
    (hm : m t = Except.error msg) (j1 j2 j3 : ℚ) :
    decision_gravity.run (.ok (some t)) m j1 j2 j3 =
      { gate_decision := "REFUSE", error := some msg } := by
  simp [decision_gravity.run, ht, hm]

theorem dg_run_ok (t : String) (ht : t ≠ "") (m : Model) (p0 p1 j1 j2 j3 : ℚ)
    (hm : m t = Except.ok (p0, p1)) :
    decision_gravity.run (.ok (some t)) m j1 j2 j3 =
      { gravity_score := some (round3 p1),
        dimensions := some (round3 (p1 * 0.95 + j1), round3 (p1 * 0.98 + j2),
                            round3 (p1 * 0.92 + j3)),
        gate_decision := if 0.5 ≤ p1 then "PROCEED" else "REFUSE",
        confidence := some (round3 (max p0 p1)),
        error := none } := by
  by_cases h : (0.5 : ℚ) ≤ p1 <;>
    simp [decision_gravity.run, ht, hm, h, ge_iff_le]

theorem cd_run_err (msg : String) (m : Model) (j1 j2 j3 : ℚ) :
    consequence_depth.run (.err msg) m j1 j2 j3 =
      { gate_decision := "TERMINATE", error := some msg } := rfl

theorem cd_run_modelErr (t : String) (ht : t ≠ "") (m : Model) (msg : String)
    (hm : m t = Except.error msg) (j1 j2 j3 : ℚ) :
    consequence_depth.run (.ok (some t)) m j1 j2 j3 =
      { gate_decision := "TERMINATE", error := some msg } := by
  simp [consequence_depth.run, ht, hm]

theorem cd_run_ok (t : String) (ht : t ≠ "") (m : Model) (p0 p1 j1 j2 j3 : ℚ)
    (hm : m t = Except.ok (p0, p1)) :
    consequence_depth.run (.ok (some t)) m j1 j2 j3 =
      { consequence_depth_score := some (round3 p1),
        dimensions := some (round3 (p1 * 0.95 + j1), round3 (p1 * 0.92 + j2),
                            round3 (p1 * 0.98 + j3)),
        gate_decision := if 0.5 ≤ p1 then "APPROVE" else "TERMINATE",
        confidence := some (round3 (max p0 p1)),
        error := none } := by
  by_cases h : (0.5 : ℚ) ≤ p1 <;>
    simp [consequence_depth.run, ht, hm, h, ge_iff_le]

/-! ### Claims -/

/-- C1: for every gate and every input whose text is present and non-empty,
with `p` the classifier's positive-class probability, the returned
`gate_decision` is the gate's pass label (PROCEED at threshold 0.6 for
question-depth, PROCEED at 0.5 for decision-gravity, APPROVE at 0.5 for
consequence-depth) iff `p` is at least the threshold; in particular `p`
exactly at the threshold yields the pass label. -/
theorem C1_gate_decision_iff_threshold (t : String) (ht : t ≠ "") (m : Model)
    (p0 p1 j1 j2 j3 : ℚ) (hm : m t = Except.ok (p0, p1)) :
    ((question_depth.run (.ok (some t)) m j1 j2 j3).gate_decision = "PROCEED" ↔ 0.6 ≤ p1) ∧
    ((decision_gravity.run (.ok (some t)) m j1 j2 j3).gate_decision = "PROCEED" ↔ 0.5 ≤ p1) ∧
    ((consequence_depth.run (.ok (some t)) m j1 j2 j3).gate_decision = "APPROVE" ↔ 0.5 ≤ p1) := by
  refine ⟨?_, ?_, ?_⟩
  · rw [qd_run_ok t ht m p0 p1 j1 j2 j3 hm]
    show (if (0.6:ℚ) ≤ p1 then "PROCEED" else "REJECT") = "PROCEED" ↔ (0.6:ℚ) ≤ p1
    by_cases h : (0.6:ℚ) ≤ p1
    · rw [if_pos h]; exact iff_of_true rfl h
    · rw [if_neg h]; exact iff_of_false (by decide) h
  · rw [dg_run_ok t ht m p0 p1 j1 j2 j3 hm]
    show (if (0.5:ℚ) ≤ p1 then "PROCEED" else "REFUSE") = "PROCEED" ↔ (0.5:ℚ) ≤ p1
    by_cases h : (0.5:ℚ) ≤ p1
    · rw [if_pos h]; exact iff_of_true rfl h
    · rw [if_neg h]; exact iff_of_false (by decide) h
  · rw [cd_run_ok t ht m p0 p1 j1 j2 j3 hm]
    show (if (0.5:ℚ) ≤ p1 then "APPROVE" else "TERMINATE") = "APPROVE" ↔ (0.5:ℚ) ≤ p1
    by_cases h : (0.5:ℚ) ≤ p1
    · rw [if_pos h]; exact iff_of_true rfl h
    · rw [if_neg h]; exact iff_of_false (by decide) h

/-- Witness for C1 at probability exactly 0.6, the question-depth threshold:
the boundary score passes. -/
theorem C1_gate_decision_iff_threshold_witness :
    (question_depth.run (.ok (some "hi")) (fun _ => Except.ok ((2:ℚ)/5, 3/5)) 0 0 0).gate_decision
      = "PROCEED" :=
  ((C1_gate_decision_iff_threshold "hi" (by decide) (fun _ => Except.ok ((2:ℚ)/5, 3/5))
      (2/5) (3/5) 0 0 0 rfl).1).mpr (by norm_num)

/-- C2: `run` is a total function into structured results, and whenever a step
fails — the parse raised, or the classifier raised — the result carries the
exception message in `error` and the gate's fail label in `gate_decision`. -/
theorem C2_failures_are_structured (msg : String) (t : String) (ht : t ≠ "") (m : Model)
    (hm : m t = Except.error msg) (mp : Model) (j1 j2 j3 : ℚ) :
    ((question_depth.run (.err msg) mp j1 j2 j3).error = some msg ∧
     (question_depth.run (.err msg) mp j1 j2 j3).gate_decision = "REJECT") ∧
    ((decision_gravity.run (.err msg) mp j1 j2 j3).error = some msg ∧
     (decision_gravity.run (.err msg) mp j1 j2 j3).gate_decision = "REFUSE") ∧
    ((consequence_depth.run (.err msg) mp j1 j2 j3).error = some msg ∧
     (consequence_depth.run (.err msg) mp j1 j2 j3).gate_decision = "TERMINATE") ∧
    ((question_depth.run (.ok (some t)) m j1 j2 j3).error = some msg ∧
     (question_depth.run (.ok (some t)) m j1 j2 j3).gate_decision = "REJECT") ∧
    ((decision_gravity.run (.ok (some t)) m j1 j2 j3).error = some msg ∧
     (decision_gravity.run (.ok (some t)) m j1 j2 j3).gate_decision = "REFUSE") ∧
    ((consequence_depth.run (.ok (some t)) m j1 j2 j3).error = some msg ∧
     (consequence_depth.run (.ok (some t)) m j1 j2 j3).gate_decision = "TERMINATE") := by
  refine ⟨⟨rfl, rfl⟩, ⟨rfl, rfl⟩, ⟨rfl, rfl⟩, ?_, ?_, ?_⟩
  · rw [qd_run_modelErr t ht m msg hm]; exact ⟨rfl, rfl⟩
  · rw [dg_run_modelErr t ht m msg hm]; exact ⟨rfl, rfl⟩
  · rw [cd_run_modelErr t ht m msg hm]; exact ⟨rfl, rfl⟩

/-- Witness for C2: a parse exception "boom" and a classifier that raises
"boom" on the text "x". -/
theorem C2_failures_are_structured_witness :
    ((question_depth.run (.err "boom") (fun _ => Except.ok ((0:ℚ), 0)) 0 0 0).error = some "boom" ∧
     (question_depth.run (.err "boom") (fun _ => Except.ok ((0:ℚ), 0)) 0 0 0).gate_decision = "REJECT") ∧
    ((decision_gravity.run (.err "boom") (fun _ => Except.ok ((0:ℚ), 0)) 0 0 0).error = some "boom" ∧
     (decision_gravity.run (.err "boom") (fun _ => Except.ok ((0:ℚ), 0)) 0 0 0).gate_decision = "REFUSE") ∧
    ((consequence_depth.run (.err "boom") (fun _ => Except.ok ((0:ℚ), 0)) 0 0 0).error = some "boom" ∧
     (consequence_depth.run (.err "boom") (fun _ => Except.ok ((0:ℚ), 0)) 0 0 0).gate_decision = "TERMINATE") ∧
    ((question_depth.run (.ok (some "x")) (fun _ => Except.error "boom") 0 0 0).error = some "boom" ∧
     (question_depth.run (.ok (some "x")) (fun _ => Except.error "boom") 0 0 0).gate_decision = "REJECT") ∧
    ((decision_gravity.run (.ok (some "x")) (fun _ => Except.error "boom") 0 0 0).error = some "boom" ∧
     (decision_gravity.run (.ok (some "x")) (fun _ => Except.error "boom") 0 0 0).gate_decision = "REFUSE") ∧
    ((consequence_depth.run (.ok (some "x")) (fun _ => Except.error "boom") 0 0 0).error = some "boom" ∧
     (consequence_depth.run (.ok (some "x")) (fun _ => Except.error "boom") 0 0 0).gate_decision = "TERMINATE") :=
  C2_failures_are_structured "boom" "x" (by decide) (fun _ => Except.error "boom") rfl
    (fun _ => Except.ok ((0:ℚ), 0)) 0 0 0

/-- C3: with the text key absent or its value empty, each gate returns exactly
the "No text provided" error object with its fail label and no score,
dimension or confidence fields; the question-depth gate additionally includes
the fixed guidance string. -/
theorem C3_no_text_error_object (m : Model) (j1 j2 j3 : ℚ) (tf : Option String)
    (h : tf = none ∨ tf = some "") :
    question_depth.run (.ok tf) m j1 j2 j3 =
      { gate_decision := "REJECT", error := some "No text provided",
        guidance := some "Please provide a question." } ∧
    decision_gravity.run (.ok tf) m j1 j2 j3 =
      { gate_decision := "REFUSE", error := some "No text provided" } ∧
    consequence_depth.run (.ok tf) m j1 j2 j3 =
      { gate_decision := "TERMINATE", error := some "No text provided" } := by
  rcases h with h | h <;> subst h <;> exact ⟨rfl, rfl, rfl⟩

/-- Witness for C3 at the record `\x7b\x7d` with no text key at all. -/
theorem C3_no_text_error_object_witness :
    question_depth.run (.ok none) (fun _ => Except.ok ((0:ℚ), 0)) 0 0 0 =
      { gate_decision := "REJECT", error := some "No text provided",
        guidance := some "Please provide a question." } ∧
    decision_gravity.run (.ok none) (fun _ => Except.ok ((0:ℚ), 0)) 0 0 0 =
      { gate_decision := "REFUSE", error := some "No text provided" } ∧
    consequence_depth.run (.ok none) (fun _ => Except.ok ((0:ℚ), 0)) 0 0 0 =
      { gate_decision := "TERMINATE", error := some "No text provided" } :=
  C3_no_text_error_object (fun _ => Except.ok ((0:ℚ), 0)) 0 0 0 none (Or.inl rfl)

/-- The RejectionClassifier keyword rules of spec §4.3, written as a priority
list of (patterns, reason code) pairs, first match winning; used only to
compare the spec's description against `detect_rejection_type`. -/
def spec_rejection_rules : List (List String × String) :=
  [(["should i", "what should", "recommend", "advise"], "advice_seeking"),
   (["will i", "will it", "what will", "going to"], "predictive"),
   (["won't", "isn't it", "don't you think", "right?"], "leading"),
   (["what if i had", "other option", "alternative"], "comparison")]

/-- The spec's RejectionClassifier: first keyword rule matching the lower-cased
text wins, else `binary` when the word count is under 6, else `generic`. -/
def spec_classify (text : String) : String :=
  match spec_rejection_rules.find? (fun r => r.1.any (containsSub (pyLower text))) with
  | some r => r.2
  | none => if (pyWords text).length < 6 then "binary" else "generic"

/-- C4: `detect_rejection_type` implements exactly the six spec rules in strict
priority order on the lower-cased text, first match winning; in particular
"Should I do this right?" is `advice_seeking` (rule 1 beats rule 3) and "ok"
is `binary`. -/
theorem C4_rejection_rules_priority :
    (∀ t, question_depth.detect_rejection_type t = spec_classify t) ∧
    question_depth.detect_rejection_type "Should I do this right?" = "advice_seeking" ∧
    question_depth.detect_rejection_type "ok" = "binary" := by
  refine ⟨?_, by decide, by decide⟩
  intro t
  simp only [question_depth.detect_rejection_type, spec_classify, spec_rejection_rules,
    List.find?]
  cases h1 : (["should i", "what should", "recommend", "advise"]).any (containsSub (pyLower t)) <;>
    cases h2 : (["will i", "will it", "what will", "going to"]).any (containsSub (pyLower t)) <;>
      cases h3 : (["won't", "isn't it", "don't you think", "right?"]).any (containsSub (pyLower t)) <;>
        cases h4 : (["what if i had", "other option", "alternative"]).any (containsSub (pyLower t)) <;>
          simp [h1, h2, h3, h4]

/-- C5: for the question-depth gate on non-empty text, a REJECT decision comes
with `rejection_type = detect_rejection_type text` and the canned guidance for
that code, while a PROCEED decision has both null; "Will I be happy?" under a
score below 0.6 yields REJECT, `predictive`, and the predictive guidance. -/
theorem C5_rejection_info (t : String) (ht : t ≠ "") (m : Model)
    (p0 p1 j1 j2 j3 : ℚ) (hm : m t = Except.ok (p0, p1)) :
    ((question_depth.run (.ok (some t)) m j1 j2 j3).gate_decision = "REJECT" →
      (question_depth.run (.ok (some t)) m j1 j2 j3).rejection_type
          = some (question_depth.detect_rejection_type t) ∧
      (question_depth.run (.ok (some t)) m j1 j2 j3).guidance
          = some (question_depth.guidance_for (question_depth.detect_rejection_type t))) ∧
    ((question_depth.run (.ok (some t)) m j1 j2 j3).gate_decision = "PROCEED" →
      (question_depth.run (.ok (some t)) m j1 j2 j3).rejection_type = none ∧
      (question_depth.run (.ok (some t)) m j1 j2 j3).guidance = none) ∧
    (p1 < 0.6 →
      (question_depth.run (.ok (some "Will I be happy?")) (fun _ => Except.ok (p0, p1))
          j1 j2 j3).gate_decision = "REJECT" ∧
      (question_depth.run (.ok (some "Will I be happy?")) (fun _ => Except.ok (p0, p1))
          j1 j2 j3).rejection_type = some "predictive" ∧
      (question_depth.run (.ok (some "Will I be happy?")) (fun _ => Except.ok (p0, p1))
          j1 j2 j3).guidance =
        some "This question asks for predictions. Ask about one possible future experience.") := by
  rw [qd_run_ok t ht m p0 p1 j1 j2 j3 hm]
  by_cases h : (0.6 : ℚ) ≤ p1
  · simp only [if_pos h]
    exact ⟨fun hc => absurd hc (by decide), fun _ => ⟨trivial, trivial⟩,
      fun hlt => absurd h (not_le.mpr hlt)⟩
  · simp only [if_neg h]
    refine ⟨fun _ => ⟨trivial, trivial⟩, fun hc => absurd hc (by decide), fun hlt => ?_⟩
    rw [qd_run_ok "Will I be happy?" (by decide) _ p0 p1 j1 j2 j3 rfl]
    simp only [if_neg h]
    exact ⟨by trivial, by decide, by decide⟩

/-- Witness for C5: "Will I be happy?" with both class probabilities 1/2. -/
theorem C5_rejection_info_witness :
    (question_depth.run (.ok (some "Will I be happy?")) (fun _ => Except.ok ((1:ℚ)/2, 1/2))
        0 0 0).gate_decision = "REJECT" ∧
    (question_depth.run (.ok (some "Will I be happy?")) (fun _ => Except.ok ((1:ℚ)/2, 1/2))
        0 0 0).rejection_type = some "predictive" ∧
    (question_depth.run (.ok (some "Will I be happy?")) (fun _ => Except.ok ((1:ℚ)/2, 1/2))
        0 0 0).guidance =
      some "This question asks for predictions. Ask about one possible future experience." :=
  (C5_rejection_info "Will I be happy?" (by decide) (fun _ => Except.ok ((1:ℚ)/2, 1/2))
      (1/2) (1/2) 0 0 0 rfl).2.2 (by norm_num)

/-- C6 counterexample: at probability 997/9500 and first-dimension jitter
499/10000 (inside [-0.05, 0.05]), the decision-gravity gate's first dimension
is round(0.1496, 3) = 0.15, which exceeds the claimed upper bound
p * 0.95 + 0.05 = 0.1497; rounding to 3 decimals can leave the claimed band. -/
theorem C6_counterexample :
    |(499/10000 : ℚ)| ≤ 1/20 ∧ (0:ℚ) ≤ 997/9500 ∧ (997/9500 : ℚ) ≤ 1 ∧
    (decision_gravity.run (.ok (some "x")) (fun _ => Except.ok (8503/9500, 997/9500))
        (499/10000) 0 0).dimensions = some (3/20, 103/1000, 97/1000) ∧
    ¬((3/20 : ℚ) ≤ (997/9500) * 0.95 + 1/20) := by
  refine ⟨by rw [abs_le]; constructor <;> norm_num, by norm_num, by norm_num, ?_, by norm_num⟩
  rw [dg_run_ok "x" (by decide) _ (8503/9500) (997/9500) (499/10000) 0 0 rfl]
  norm_num [round3, rhe]

/-- C6 as amended: each returned dimension value `round3 (p*w + jitter)` lies
in the closed interval `[p*w - 0.0505, p*w + 0.0505]` — the claimed band
`[p*w - 0.05, p*w + 0.05]` widened by the half-ulp 0.0005 that rounding to
three decimals can add. -/
theorem C6_amended_dimension_bands (t : String) (ht : t ≠ "") (m : Model)
    (p0 p1 j1 j2 j3 : ℚ) (hm : m t = Except.ok (p0, p1))
    (h1 : |j1| ≤ 1/20) (h2 : |j2| ≤ 1/20) (h3 : |j3| ≤ 1/20) :
    (question_depth.run (.ok (some t)) m j1 j2 j3).dimensions =
      some (round3 (p1 * 0.95 + j1), round3 (p1 * 0.98 + j2), round3 (p1 * 0.92 + j3)) ∧
    (decision_gravity.run (.ok (some t)) m j1 j2 j3).dimensions =
      some (round3 (p1 * 0.95 + j1), round3 (p1 * 0.98 + j2), round3 (p1 * 0.92 + j3)) ∧
    (consequence_depth.run (.ok (some t)) m j1 j2 j3).dimensions =
      some (round3 (p1 * 0.95 + j1), round3 (p1 * 0.92 + j2), round3 (p1 * 0.98 + j3)) ∧
    (p1 * 0.95 - 101/2000 ≤ round3 (p1 * 0.95 + j1) ∧
      round3 (p1 * 0.95 + j1) ≤ p1 * 0.95 + 101/2000) ∧
    (p1 * 0.98 - 101/2000 ≤ round3 (p1 * 0.98 + j2) ∧
      round3 (p1 * 0.98 + j2) ≤ p1 * 0.98 + 101/2000) ∧
    (p1 * 0.92 - 101/2000 ≤ round3 (p1 * 0.92 + j3) ∧
      round3 (p1 * 0.92 + j3) ≤ p1 * 0.92 + 101/2000) ∧
    (p1 * 0.92 - 101/2000 ≤ round3 (p1 * 0.92 + j2) ∧
      round3 (p1 * 0.92 + j2) ≤ p1 * 0.92 + 101/2000) ∧
    (p1 * 0.98 - 101/2000 ≤ round3 (p1 * 0.98 + j3) ∧
      round3 (p1 * 0.98 + j3) ≤ p1 * 0.98 + 101/2000) := by
  refine ⟨?_, ?_, ?_, ?_, ?_, ?_, ?_, ?_⟩
  · rw [qd_run_ok t ht m p0 p1 j1 j2 j3 hm]
  · rw [dg_run_ok t ht m p0 p1 j1 j2 j3 hm]
  · rw [cd_run_ok t ht m p0 p1 j1 j2 j3 hm]
  · have e : p1 * 0.95 = p1 * (19/20) := by norm_num
    simpa [e] using round3_band p1 (19/20) j1 h1
  · have e : p1 * 0.98 = p1 * (49/50) := by norm_num
    simpa [e] using round3_band p1 (49/50) j2 h2
  · have e : p1 * 0.92 = p1 * (23/25) := by norm_num
    simpa [e] using round3_band p1 (23/25) j3 h3
  · have e : p1 * 0.92 = p1 * (23/25) := by norm_num
    simpa [e] using round3_band p1 (23/25) j2 h2
  · have e : p1 * 0.98 = p1 * (49/50) := by norm_num
    simpa [e] using round3_band p1 (49/50) j3 h3

/-- Witness for the amended C6 at probability 1/2 and zero jitters. -/
theorem C6_amended_dimension_bands_witness :
    (question_depth.run (.ok (some "x")) (fun _ => Except.ok ((1:ℚ)/2, 1/2)) 0 0 0).dimensions =
      some (round3 ((1:ℚ)/2 * 0.95 + 0), round3 ((1:ℚ)/2 * 0.98 + 0), round3 ((1:ℚ)/2 * 0.92 + 0)) ∧
    (decision_gravity.run (.ok (some "x")) (fun _ => Except.ok ((1:ℚ)/2, 1/2)) 0 0 0).dimensions =
      some (round3 ((1:ℚ)/2 * 0.95 + 0), round3 ((1:ℚ)/2 * 0.98 + 0), round3 ((1:ℚ)/2 * 0.92 + 0)) ∧
    (consequence_depth.run (.ok (some "x")) (fun _ => Except.ok ((1:ℚ)/2, 1/2)) 0 0 0).dimensions =
      some (round3 ((1:ℚ)/2 * 0.95 + 0), round3 ((1:ℚ)/2 * 0.92 + 0), round3 ((1:ℚ)/2 * 0.98 + 0)) ∧
    ((1:ℚ)/2 * 0.95 - 101/2000 ≤ round3 ((1:ℚ)/2 * 0.95 + 0) ∧
      round3 ((1:ℚ)/2 * 0.95 + 0) ≤ (1:ℚ)/2 * 0.95 + 101/2000) ∧
    ((1:ℚ)/2 * 0.98 - 101/2000 ≤ round3 ((1:ℚ)/2 * 0.98 + 0) ∧
      round3 ((1:ℚ)/2 * 0.98 + 0) ≤ (1:ℚ)/2 * 0.98 + 101/2000) ∧
    ((1:ℚ)/2 * 0.92 - 101/2000 ≤ round3 ((1:ℚ)/2 * 0.92 + 0) ∧
      round3 ((1:ℚ)/2 * 0.92 + 0) ≤ (1:ℚ)/2 * 0.92 + 101/2000) ∧
    ((1:ℚ)/2 * 0.92 - 101/2000 ≤ round3 ((1:ℚ)/2 * 0.92 + 0) ∧
      round3 ((1:ℚ)/2 * 0.92 + 0) ≤ (1:ℚ)/2 * 0.92 + 101/2000) ∧
    ((1:ℚ)/2 * 0.98 - 101/2000 ≤ round3 ((1:ℚ)/2 * 0.98 + 0) ∧
      round3 ((1:ℚ)/2 * 0.98 + 0) ≤ (1:ℚ)/2 * 0.98 + 101/2000) :=
  C6_amended_dimension_bands "x" (by decide) (fun _ => Except.ok ((1:ℚ)/2, 1/2))
    (1/2) (1/2) 0 0 0 rfl (by rw [abs_le]; constructor <;> norm_num)
    (by rw [abs_le]; constructor <;> norm_num) (by rw [abs_le]; constructor <;> norm_num)

/-- C7: for every gate on non-empty text, with the two class probabilities
nonnegative and summing to 1, the returned confidence is `round3 (max p (1-p))`
for `p` the positive-class probability, and that value lies in [1/2, 1]. -/
theorem C7_confidence_is_max_class_probability (t : String) (ht : t ≠ "") (m : Model)
    (p0 p1 j1 j2 j3 : ℚ) (hm : m t = Except.ok (p0, p1))
    (h0 : 0 ≤ p0) (h1 : 0 ≤ p1) (hsum : p0 + p1 = 1) :
    (question_depth.run (.ok (some t)) m j1 j2 j3).confidence
        = some (round3 (max p1 (1 - p1))) ∧
    (decision_gravity.run (.ok (some t)) m j1 j2 j3).confidence
        = some (round3 (max p1 (1 - p1))) ∧
    (consequence_depth.run (.ok (some t)) m j1 j2 j3).confidence
        = some (round3 (max p1 (1 - p1))) ∧
    1/2 ≤ round3 (max p1 (1 - p1)) ∧ round3 (max p1 (1 - p1)) ≤ 1 := by
  have hp0 : p0 = 1 - p1 := by linarith
  have hmax : max p0 p1 = max p1 (1 - p1) := by rw [hp0, max_comm]
  have hhalf : 1/2 ≤ max p1 (1 - p1) := by
    rcases le_total p1 (1/2) with h | h
    · exact le_max_of_le_right (by linarith)
    · exact le_max_of_le_left h
  have hone : max p1 (1 - p1) ≤ 1 := max_le (by linarith) (by linarith)
  refine ⟨?_, ?_, ?_, half_le_round3 _ hhalf, round3_le_one _ hone⟩
  · rw [qd_run_ok t ht m p0 p1 j1 j2 j3 hm]
    show some (round3 (max p0 p1)) = some (round3 (max p1 (1 - p1)))
    rw [hmax]
  · rw [dg_run_ok t ht m p0 p1 j1 j2 j3 hm]
    show some (round3 (max p0 p1)) = some (round3 (max p1 (1 - p1)))
    rw [hmax]
  · rw [cd_run_ok t ht m p0 p1 j1 j2 j3 hm]
    show some (round3 (max p0 p1)) = some (round3 (max p1 (1 - p1)))
    rw [hmax]

/-- Witness for C7 at the uniform distribution (1/2, 1/2). -/
theorem C7_confidence_is_max_class_probability_witness :
    (question_depth.run (.ok (some "x")) (fun _ => Except.ok ((1:ℚ)/2, 1/2)) 0 0 0).confidence
        = some (round3 (max (1/2) (1 - 1/2))) ∧
    1/2 ≤ round3 (max ((1:ℚ)/2) (1 - 1/2)) :=
  ⟨(C7_confidence_is_max_class_probability "x" (by decide) (fun _ => Except.ok ((1:ℚ)/2, 1/2))
      (1/2) (1/2) 0 0 0 rfl (by norm_num) (by norm_num) (by norm_num)).1,
   (C7_confidence_is_max_class_probability "x" (by decide) (fun _ => Except.ok ((1:ℚ)/2, 1/2))
      (1/2) (1/2) 0 0 0 rfl (by norm_num) (by norm_num) (by norm_num)).2.2.2.1⟩

/-- C8: the gate decision is a function of the positive-class probability
alone — two runs on different non-empty texts, models and jitters, but with
the same positive probability, return the same `gate_decision` for each gate. -/
theorem C8_decision_depends_only_on_probability (t1 t2 : String)
    (h1 : t1 ≠ "") (h2 : t2 ≠ "") (m1 m2 : Model) (a b p j1 j2 j3 k1 k2 k3 : ℚ)
    (hm1 : m1 t1 = Except.ok (a, p)) (hm2 : m2 t2 = Except.ok (b, p)) :
    (question_depth.run (.ok (some t1)) m1 j1 j2 j3).gate_decision
        = (question_depth.run (.ok (some t2)) m2 k1 k2 k3).gate_decision ∧
    (decision_gravity.run (.ok (some t1)) m1 j1 j2 j3).gate_decision
        = (decision_gravity.run (.ok (some t2)) m2 k1 k2 k3).gate_decision ∧
    (consequence_depth.run (.ok (some t1)) m1 j1 j2 j3).gate_decision
        = (consequence_depth.run (.ok (some t2)) m2 k1 k2 k3).gate_decision := by
  refine ⟨?_, ?_, ?_⟩
  · rw [qd_run_ok t1 h1 m1 a p j1 j2 j3 hm1,
      qd_run_ok t2 h2 m2 b p k1 k2 k3 hm2]
  · rw [dg_run_ok t1 h1 m1 a p j1 j2 j3 hm1,
      dg_run_ok t2 h2 m2 b p k1 k2 k3 hm2]
  · rw [cd_run_ok t1 h1 m1 a p j1 j2 j3 hm1,
      cd_run_ok t2 h2 m2 b p k1 k2 k3 hm2]

/-- Witness for C8: two different texts and models both scored 1/2. -/
theorem C8_decision_depends_only_on_probability_witness :
    (question_depth.run (.ok (some "a")) (fun _ => Except.ok ((1:ℚ)/2, 1/2)) 0 0 0).gate_decision
        = (question_depth.run (.ok (some "bb")) (fun _ => Except.ok ((1:ℚ)/4, 1/2)) 1 1 1).gate_decision ∧
    (decision_gravity.run (.ok (some "a")) (fun _ => Except.ok ((1:ℚ)/2, 1/2)) 0 0 0).gate_decision
        = (decision_gravity.run (.ok (some "bb")) (fun _ => Except.ok ((1:ℚ)/4, 1/2)) 1 1 1).gate_decision ∧
    (consequence_depth.run (.ok (some "a")) (fun _ => Except.ok ((1:ℚ)/2, 1/2)) 0 0 0).gate_decision
        = (consequence_depth.run (.ok (some "bb")) (fun _ => Except.ok ((1:ℚ)/4, 1/2)) 1 1 1).gate_decision :=
  C8_decision_depends_only_on_probability "a" "bb" (by decide) (by decide)
    (fun _ => Except.ok ((1:ℚ)/2, 1/2)) (fun _ => Except.ok ((1:ℚ)/4, 1/2))
    (1/2) (1/4) (1/2) 0 0 0 1 1 1 rfl rfl

/-- C9: with the model fixed and the input fixed, every output field other
than the three dimension values is the same across two calls with different
jitter draws: only the dimension sub-scores can differ between runs. -/
theorem C9_all_but_dimensions_deterministic (parse : ParseOutcome) (m : Model)
    (j1 j2 j3 k1 k2 k3 : ℚ) :
    (question_depth.run parse m j1 j2 j3).depth_score
        = (question_depth.run parse m k1 k2 k3).depth_score ∧
    (question_depth.run parse m j1 j2 j3).gate_decision
        = (question_depth.run parse m k1 k2 k3).gate_decision ∧
    (question_depth.run parse m j1 j2 j3).rejection_type
        = (question_depth.run parse m k1 k2 k3).rejection_type ∧
    (question_depth.run parse m j1 j2 j3).guidance
        = (question_depth.run parse m k1 k2 k3).guidance ∧
    (question_depth.run parse m j1 j2 j3).confidence
        = (question_depth.run parse m k1 k2 k3).confidence ∧
    (question_depth.run parse m j1 j2 j3).error
        = (question_depth.run parse m k1 k2 k3).error ∧
    (decision_gravity.run parse m j1 j2 j3).gravity_score
        = (decision_gravity.run parse m k1 k2 k3).gravity_score ∧
    (decision_gravity.run parse m j1 j2 j3).gate_decision
        = (decision_gravity.run parse m k1 k2 k3).gate_decision ∧
    (decision_gravity.run parse m j1 j2 j3).confidence
        = (decision_gravity.run parse m k1 k2 k3).confidence ∧
    (decision_gravity.run parse m j1 j2 j3).error
        = (decision_gravity.run parse m k1 k2 k3).error ∧
    (consequence_depth.run parse m j1 j2 j3).consequence_depth_score
        = (consequence_depth.run parse m k1 k2 k3).consequence_depth_score ∧
    (consequence_depth.run parse m j1 j2 j3).gate_decision
        = (consequence_depth.run parse m k1 k2 k3).gate_decision ∧
    (consequence_depth.run parse m j1 j2 j3).confidence
        = (consequence_depth.run parse m k1 k2 k3).confidence ∧
    (consequence_depth.run parse m j1 j2 j3).error
        = (consequence_depth.run parse m k1 k2 k3).error := by
  cases parse with
  | err msg =>
    exact ⟨rfl, rfl, rfl, rfl, rfl, rfl, rfl, rfl, rfl, rfl, rfl, rfl, rfl, rfl⟩
  | ok tf =>
    match tf with
    | none =>
      exact ⟨rfl, rfl, rfl, rfl, rfl, rfl, rfl, rfl, rfl, rfl, rfl, rfl, rfl, rfl⟩
    | some t =>
      by_cases ht : t = ""
      · subst ht
        exact ⟨rfl, rfl, rfl, rfl, rfl, rfl, rfl, rfl, rfl, rfl, rfl, rfl, rfl, rfl⟩
      · cases hmt : m t with
        | error msg =>
          rw [qd_run_modelErr t ht m msg hmt j1 j2 j3,
            qd_run_modelErr t ht m msg hmt k1 k2 k3,
            dg_run_modelErr t ht m msg hmt j1 j2 j3,
            dg_run_modelErr t ht m msg hmt k1 k2 k3,
            cd_run_modelErr t ht m msg hmt j1 j2 j3,
            cd_run_modelErr t ht m msg hmt k1 k2 k3]
          exact ⟨rfl, rfl, rfl, rfl, rfl, rfl, rfl, rfl, rfl, rfl, rfl, rfl, rfl, rfl⟩
        | ok pr =>
          obtain ⟨p0, p1⟩ := pr
          rw [qd_run_ok t ht m p0 p1 j1 j2 j3 hmt,
            qd_run_ok t ht m p0 p1 k1 k2 k3 hmt,
            dg_run_ok t ht m p0 p1 j1 j2 j3 hmt,
            dg_run_ok t ht m p0 p1 k1 k2 k3 hmt,
            cd_run_ok t ht m p0 p1 j1 j2 j3 hmt,
            cd_run_ok t ht m p0 p1 k1 k2 k3 hmt]
          exact ⟨rfl, rfl, rfl, rfl, rfl, rfl, rfl, rfl, rfl, rfl, rfl, rfl, rfl, rfl⟩

/-- C10: `detect_rejection_type` always returns one of the six keys of the
REJECTION_GUIDANCE table, so the table lookup always succeeds and the
`.get` fallback to the generic entry is unreachable: the guidance used by
`run` is exactly the table entry for the detected code. -/
theorem C10_detect_total_and_fallback_unreachable :
    ∀ t, (question_depth.detect_rejection_type t = "advice_seeking" ∨
          question_depth.detect_rejection_type t = "predictive" ∨
          question_depth.detect_rejection_type t = "leading" ∨
          question_depth.detect_rejection_type t = "comparison" ∨
          question_depth.detect_rejection_type t = "binary" ∨
          question_depth.detect_rejection_type t = "generic") ∧
        question_depth.REJECTION_GUIDANCE.lookup (question_depth.detect_rejection_type t) =
          some (question_depth.guidance_for (question_depth.detect_rejection_type t)) := by
  intro t
  simp only [question_depth.detect_rejection_type]
  split_ifs <;> exact ⟨by decide, by decide⟩
